import Mathlib

/-!
Shallow embedding of `dpxdt/server/api.py` (web API for managing screenshots
and incremental diffs) and verification of the specification claims about it.

The database session is embedded as an explicit state value (`DB`).  Each HTTP
endpoint becomes a function from the pre-request state (and the parsed form
parameters) to `Except String (DB × result)`: a `.ok` carries the committed
post-request state, a `.error` means the request aborted (a failed
`jsonify_assert` or an unhandled database error), in which case the transaction
rolls back and the durable state is unchanged (`execState`).

Form parameters arrive as `Option String` (absent field = `none`); Python
truthiness of such a value is `truthy`.  Flask's `type=int` conversion is
`formInt` (conversion failure yields `none`, as `request.form.get` does).
-/

namespace Dpxdt

/-! ### SHA-1, modelling `hashlib.sha1(data).hexdigest()` -/

def mask32 (x : Nat) : Nat := x % 4294967296

def rotl32 (n x : Nat) : Nat := mask32 ((x <<< n) ||| (x >>> (32 - n)))

/-- Big-endian byte expansion of `x` into `k` bytes. -/
def beBytes (k x : Nat) : List Nat :=
  match k with
  | 0 => []
  | k + 1 => beBytes k (x / 256) ++ [x % 256]

/-- Merkle-Damgard padding: append 0x80, zeros up to 56 mod 64, then the
bit length as 8 big-endian bytes. -/
def sha1pad (msg : List Nat) : List Nat :=
  let len := msg.length
  let k := (120 - ((len + 1) % 64)) % 64
  msg ++ [128] ++ List.replicate k 0 ++ beBytes 8 (8 * len)

/-- Big-endian 32-bit words from bytes. -/
def toWords : List Nat → List Nat
  | a :: b :: c :: d :: rest =>
      ((((a % 256) * 256 + b % 256) * 256 + c % 256) * 256 + d % 256) :: toWords rest
  | _ => []

/-- Split a byte string into 64-byte blocks. -/
def toBlocks : List Nat → List (List Nat)
  | [] => []
  | x :: xs => (x :: xs).take 64 :: toBlocks (xs.drop 63)
termination_by l => l.length
decreasing_by simp [List.length_drop]; omega

/-- The 80-word message schedule of one block. -/
def schedule (block : List Nat) : Array Nat :=
  (List.range 64).foldl
    (fun w i =>
      w.push (rotl32 1
        ((w.getD (i + 13) 0) ^^^ (w.getD (i + 8) 0) ^^^ (w.getD (i + 2) 0) ^^^ (w.getD i 0))))
    (toWords block).toArray

def sha1f (i b c d : Nat) : Nat :=
  if i < 20 then (b &&& c) ||| ((b ^^^ 4294967295) &&& d)
  else if i < 40 then b ^^^ c ^^^ d
  else if i < 60 then (b &&& c) ||| (b &&& d) ||| (c &&& d)
  else b ^^^ c ^^^ d

def sha1k (i : Nat) : Nat :=
  if i < 20 then 0x5A827999
  else if i < 40 then 0x6ED9EBA1
  else if i < 60 then 0x8F1BBCDC
  else 0xCA62C1D6

def sha1compress (h : Nat × Nat × Nat × Nat × Nat) (block : List Nat) :
    Nat × Nat × Nat × Nat × Nat :=
  let w := schedule block
  let step := fun (s : Nat × Nat × Nat × Nat × Nat) (i : Nat) =>
    let (a, b, c, d, e) := s
    let t := mask32 (rotl32 5 a + sha1f i b c d + e + sha1k i + w.getD i 0)
    (t, a, rotl32 30 b, c, d)
  let (a, b, c, d, e) := (List.range 80).foldl step h
  (mask32 (h.1 + a), mask32 (h.2.1 + b), mask32 (h.2.2.1 + c),
   mask32 (h.2.2.2.1 + d), mask32 (h.2.2.2.2 + e))

def hexDigit (n : Nat) : Char :=
  if n < 10 then Char.ofNat (48 + n) else Char.ofNat (87 + n)

def hexWord (x : Nat) : List Char :=
  [hexDigit (x / 268435456 % 16), hexDigit (x / 16777216 % 16),
   hexDigit (x / 1048576 % 16), hexDigit (x / 65536 % 16),
   hexDigit (x / 4096 % 16), hexDigit (x / 256 % 16),
   hexDigit (x / 16 % 16), hexDigit (x % 16)]

/-- Lowercase hex SHA-1 digest of a byte string, as `hashlib.sha1(..).hexdigest()`. -/
def sha1hex (data : List Nat) : String :=
  let hs := (toBlocks (sha1pad data)).foldl sha1compress
    (0x67452301, 0xEFCDAB89, 0x98BADCFE, 0x10325476, 0xC3D2E1F0)
  String.mk (hexWord hs.1 ++ hexWord hs.2.1 ++ hexWord hs.2.2.1 ++
             hexWord hs.2.2.2.1 ++ hexWord hs.2.2.2.2)

/-! ### Data model (the four `db.Model` classes) -/

/-- Release.STATES: the status enum of a Release. -/
inductive Status where
  | receiving
  | processing
  | reviewing
  | bad
  | good
deriving DecidableEq

/-- Build model: a single repository of artifacts and diffs. -/
structure Build where
  id : Nat
  created : Nat
  name : String
deriving DecidableEq

/-- Release model: a set of runs that are part of a build, grouped by name. -/
structure Release where
  id : Nat
  name : String
  number : Nat
  created : Nat
  status : Status
  build_id : Nat
deriving DecidableEq

/-- Artifact model: a single uploaded file, keyed by content hash. -/
structure Artifact where
  id : String
  created : Nat
  data : List Nat
  content_type : Option String
deriving DecidableEq

/-- Run model: a screenshot record uploaded by a diff worker. -/
structure Run where
  id : Nat
  release_id : Nat
  name : String
  created : Nat
  image : Option String
  log : Option String
  config : Option String
  previous_id : Option Nat
  needs_diff : Bool
  diff_image : Option String
  diff_log : Option String
deriving DecidableEq

/-- The durable state: the four tables, the work queue, the autoincrement
counters and a logical clock supplying the `created` timestamps. -/
structure DB where
  builds : List Build
  releases : List Release
  runs : List Run
  artifacts : List Artifact
  queue : List (String × Nat)
  nextBuildId : Nat
  nextReleaseId : Nat
  nextRunId : Nat
  clock : Nat
deriving DecidableEq

/-! ### Request-parameter helpers -/

/-- Python truthiness of an optional form string: absent and empty are falsy. -/
def truthy : Option String → Bool
  | none => false
  | some s => !s.isEmpty

def parseNatAux : List Char → Nat → Option Nat
  | [], acc => some acc
  | c :: cs, acc =>
    if 48 ≤ c.toNat ∧ c.toNat ≤ 57 then parseNatAux cs (10 * acc + (c.toNat - 48))
    else none

/-- Python `int()` on a string: an optional minus sign followed by at least
one decimal digit; anything else raises `ValueError`, yielding `none`. -/
def pyInt (s : String) : Option Int :=
  match s.toList with
  | [] => none
  | c :: cs =>
    if c.toNat = 45 then
      match cs with
      | [] => none
      | _ :: _ => (parseNatAux cs 0).map (fun n => -(n : Int))
    else (parseNatAux (c :: cs) 0).map (fun n => (n : Int))

/-- Flask `request.form.get(key, type=int)`: conversion failure returns the
default `None`. -/
def formInt (v : Option String) : Option Int :=
  v.bind pyInt

/-! ### Queries -/

/-- `Release.query.filter_by(build_id=.., name=.., number=..).first()`. -/
def findReleaseBy (s : DB) (build_id : Nat) (name : String) (number : Nat) : Option Release :=
  s.releases.find? (fun r =>
    decide (r.build_id = build_id) && decide (r.name = name) && decide (r.number = number))

/-- Lookup of a release row by primary key. -/
def findReleaseById (s : DB) (id : Nat) : Option Release :=
  s.releases.find? (fun r => decide (r.id = id))

/-- `Run.query.get(run_id)`. -/
def findRunById (s : DB) (id : Nat) : Option Run :=
  s.runs.find? (fun r => decide (r.id = id))

/-- Rows matched by `Release.query.filter_by(build_id=.., name=..)`. -/
def relsFor (s : DB) (build_id : Nat) (name : String) : List Release :=
  s.releases.filter (fun r => decide (r.build_id = build_id) && decide (r.name = name))

/-- Rows matched by `Release.query.filter_by(build_id=.., name=.., status=GOOD)`. -/
def goodsFor (s : DB) (build_id : Nat) (name : String) : List Release :=
  s.releases.filter (fun r =>
    decide (r.build_id = build_id) && decide (r.name = name) && decide (r.status = Status.good))

/-- `order_by(Release.number.desc()).first()`: a row carrying the maximal
`number` (keeping the earlier row on ties). -/
def latestByNumber : List Release → Option Release
  | [] => none
  | r :: rs =>
    match latestByNumber rs with
    | none => some r
    | some m => if m.number > r.number then some m else some r

/-- `order_by(Release.created.desc()).first()`: a row carrying the maximal
`created` (keeping the earlier row on ties). -/
def latestByCreated : List Release → Option Release
  | [] => none
  | r :: rs =>
    match latestByCreated rs with
    | none => some r
    | some m => if m.created > r.created then some m else some r

/-- The last good release consulted by `report_run` for baseline linking. -/
def lastGoodRelease (s : DB) (build_id : Nat) (name : String) : Option Release :=
  latestByCreated (goodsFor s build_id name)

/-- UPDATE of the status column of the release row with primary key `id`. -/
def setReleaseStatus (l : List Release) (id : Nat) (st : Status) : List Release :=
  l.map (fun r => if r.id = id then { r with status := st } else r)

/-! ### `mimetypes.guess_type`, modelled by extension table -/

/-- Modelled from the spec: infer the content type from the extension of the
uploaded filename (`mimetypes.guess_type`, an external library). -/
def guess_type (filename : String) : Option String :=
  if filename.endsWith ".png" then some "image/png"
  else if filename.endsWith ".jpg" then some "image/jpeg"
  else if filename.endsWith ".txt" then some "text/plain"
  else none

/-! ### Endpoints -/

/-- Rollback semantics of a request: an aborted request leaves the durable
state as it was before the request. -/
def execState {α : Type} (s : DB) (r : Except String (DB × α)) : DB :=
  match r with
  | Except.ok (s', _) => s'
  | Except.error _ => s

/-- `POST /api/build`. -/
def create_build (s : DB) (name : String) : Except String (DB × Nat) :=
  if name.isEmpty then Except.error "name required"
  else
    let build : Build := { id := s.nextBuildId, created := s.clock, name := name }
    Except.ok ({ s with
        builds := s.builds ++ [build],
        nextBuildId := s.nextBuildId + 1, clock := s.clock + 1 }, build.id)

/-- `POST /api/release`: creates a new release candidate for a build.  The
candidate number starts at 1 and is bumped by the number of the most recent
candidate for the same (build, name). -/
def create_release (s : DB) (build_id : Nat) (name : String) : Except String (DB × Nat) :=
  if name.isEmpty then Except.error "name required"
  else
    let last_candidate := latestByNumber (relsFor s build_id name)
    let number := 1 + (match last_candidate with | none => 0 | some r => r.number)
    let release : Release :=
      { id := s.nextReleaseId, name := name, number := number, created := s.clock,
        status := Status.receiving, build_id := build_id }
    Except.ok ({ s with
        releases := s.releases ++ [release],
        nextReleaseId := s.nextReleaseId + 1, clock := s.clock + 1 }, number)

/-- The argument handed to `Release.query.get` inside
`_check_release_done_processing`: `report_pdiff` passes the integer
`run.release_id`, but `runs_done` passes the Release model object itself. -/
inductive ReleaseKey where
  | byId : Nat → ReleaseKey
  | byObj : Release → ReleaseKey

/-- `Release.query.get(release_id)`.  A scalar primary key is looked up;
handing the query a Release model instance instead cannot be bound as a
primary-key parameter, so the underlying SELECT raises and the request
aborts. -/
def queryGetRelease (s : DB) : ReleaseKey → Except String (Option Release)
  | ReleaseKey.byId i => Except.ok (findReleaseById s i)
  | ReleaseKey.byObj _ =>
      Except.error "InterfaceError: cannot bind a Release object as release_id"

/-- `_check_release_done_processing`: moves a release candidate to reviewing
if it is processing and none of its runs still needs a diff. -/
def check_release_done_processing (s : DB) (key : ReleaseKey) : Except String (DB × Bool) :=
  match queryGetRelease s key with
  | Except.error e => Except.error e
  | Except.ok none => Except.ok (s, false)
  | Except.ok (some release) =>
    if release.status ≠ Status.processing then Except.ok (s, false)
    else if (s.runs.filter (fun r => decide (r.release_id = release.id))).any
        (fun r => r.needs_diff) then
      Except.ok (s, false)
    else
      Except.ok ({ s with releases := setReleaseStatus s.releases release.id Status.reviewing },
        true)

/-- `POST /api/report_run`: reports a new run for a release candidate.  Note
the stored run name is the release name from the request parameters (the
source marks this with an xxx comment). -/
def report_run (s : DB) (build_id : Nat) (name : String) (number : Nat)
    (image log config no_diff diff_image diff_log : Option String) :
    Except String (DB × Run) :=
  if name.isEmpty then Except.error "name required"
  else match findReleaseBy s build_id name number with
  | none => Except.error "release does not exist"
  | some release =>
    if !truthy image then Except.error "image must be supplied"
    else
      let needs_diff := !(truthy no_diff || truthy diff_image || truthy diff_log)
      let previous_id :=
        match lastGoodRelease s build_id name with
        | none => none
        | some g =>
          (s.runs.find? (fun r => decide (r.release_id = g.id) && decide (r.name = name))).map
            Run.id
      let run : Run :=
        { id := s.nextRunId, release_id := release.id, name := name, created := s.clock,
          image := image, log := log, config := config, previous_id := previous_id,
          needs_diff := needs_diff, diff_image := diff_image, diff_log := diff_log }
      let queue1 := if needs_diff then s.queue ++ [("run-pdiff", run.id)] else s.queue
      Except.ok ({ s with
          runs := s.runs ++ [run], queue := queue1,
          nextRunId := s.nextRunId + 1, clock := s.clock + 1 }, run)

/-- The in-place mutation of the run performed by `report_pdiff`: `needs_diff`
is recomputed from the supplied `no_diff` and the run's previously stored
`diff_image`/`diff_log` (the two fields are overwritten only afterwards), and
the new diff fields go through flask's `type=int` conversion before being
stored in the string columns (SQLite text affinity renders them as text). -/
def pdiffUpdatedRun (run : Run) (no_diff diff_image diff_log : Option String) : Run :=
  { run with
    needs_diff := !(truthy no_diff || truthy run.diff_image || truthy run.diff_log),
    diff_image := (formInt diff_image).map toString,
    diff_log := (formInt diff_log).map toString }

/-- The session state after `report_pdiff` has updated the run row and before
the completion gate runs. -/
def pdiffState (s : DB) (run_id : Nat) (run : Run)
    (no_diff diff_image diff_log : Option String) : DB :=
  { s with runs := s.runs.map (fun r =>
      if r.id = run_id then pdiffUpdatedRun run no_diff diff_image diff_log else r) }

/-- `POST /api/report_pdiff`: reports a pdiff for a run, then evaluates the
completion gate for the run's release (passing the integer `run.release_id`). -/
def report_pdiff (s : DB) (run_id : Nat) (no_diff diff_image diff_log : Option String) :
    Except String (DB × Bool) :=
  match findRunById s run_id with
  | none => Except.error "Run does not exist"
  | some run =>
    let s1 := pdiffState s run_id run no_diff diff_image diff_log
    match check_release_done_processing s1 (ReleaseKey.byId run.release_id) with
    | Except.error e => Except.error e
    | Except.ok (s2, _) => Except.ok (s2, true)

/-- `POST /api/runs_done`: marks a release candidate as having all runs
reported, then evaluates the completion gate.  The source passes the Release
model object itself to `_check_release_done_processing`, whose parameter is a
`release_id` used as a `Query.get` key. -/
def runs_done (s : DB) (build_id : Nat) (name : String) (number : Nat) :
    Except String (DB × Bool) :=
  if name.isEmpty then Except.error "name required"
  else match findReleaseBy s build_id name number with
  | none => Except.error "Release does not exist"
  | some release =>
    let release1 := { release with status := Status.processing }
    let s1 := { s with releases := setReleaseStatus s.releases release.id Status.processing }
    match check_release_done_processing s1 (ReleaseKey.byObj release1) with
    | Except.error e => Except.error e
    | Except.ok (s2, _) => Except.ok (s2, true)

/-- `POST /api/release_done`: marks a release candidate as good or bad. -/
def release_done (s : DB) (build_id : Nat) (name : String) (number : Nat) (status : Status) :
    Except String (DB × Bool) :=
  if name.isEmpty then Except.error "name required"
  else if ¬ (status = Status.good ∨ status = Status.bad) then
    Except.error "status must be good or bad"
  else match findReleaseBy s build_id name number with
  | none => Except.error "Release does not exist"
  | some release =>
    Except.ok ({ s with releases := setReleaseStatus s.releases release.id status }, true)

/-- `POST /api/upload`: uploads an artifact, content-addressed by SHA-1. -/
def upload (s : DB) (data : List Nat) (filename : String) : DB × String :=
  let sha1sum := sha1hex data
  match s.artifacts.find? (fun a => decide (a.id = sha1sum)) with
  | some _ => (s, sha1sum)
  | none =>
    let artifact : Artifact :=
      { id := sha1sum, created := s.clock, data := data, content_type := guess_type filename }
    ({ s with
        artifacts := s.artifacts ++ [artifact], clock := s.clock + 1 }, sha1sum)

/-- Status of the release row with primary key `id`, if any. -/
def relStatus (s : DB) (id : Nat) : Option Status :=
  (findReleaseById s id).map Release.status

/-- All runs of the given release are resolved (none still needs a diff):
the completion predicate scanned by `_check_release_done_processing`. -/
def runsResolvedIn (s : DB) (release_id : Nat) : Bool :=
  (s.runs.filter (fun r => decide (r.release_id = release_id))).all (fun r => !r.needs_diff)

/-! ### List lemmas -/

theorem find?_append_some {α} {p : α → Bool} {l₁ : List α} {a : α} (l₂ : List α)
    (h : l₁.find? p = some a) : (l₁ ++ l₂).find? p = some a := by
  rw [List.find?_append, h]; rfl

theorem find?_append_none {α} {p : α → Bool} {l₁ : List α} (l₂ : List α)
    (h : l₁.find? p = none) : (l₁ ++ l₂).find? p = l₂.find? p := by
  rw [List.find?_append, h]; rfl

theorem all_not_eq_not_any {α} (p : α → Bool) (l : List α) :
    l.all (fun x => !p x) = !(l.any p) := by
  induction l with
  | nil => rfl
  | cons x xs ih => cases h : p x <;> simp [List.all_cons, List.any_cons, h, ih]

/-- Updating the status of row `k` rewrites the row found at key `k`. -/
theorem find_setReleaseStatus_self (l : List Release) (k : Nat) (st : Status) :
    (setReleaseStatus l k st).find? (fun r => decide (r.id = k)) =
      (l.find? (fun r => decide (r.id = k))).map (fun r => { r with status := st }) := by
  induction l with
  | nil => rfl
  | cons r rs ih =>
    by_cases h : r.id = k
    · simp [setReleaseStatus, List.find?_cons, h]
    · simp only [setReleaseStatus, List.map_cons] at ih ⊢
      rw [if_neg h, List.find?_cons_of_neg, List.find?_cons_of_neg]
      · exact ih
      · simpa using h
      · simpa using h

/-- Updating the status of row `k` leaves lookups of other keys unchanged. -/
theorem find_setReleaseStatus_other (l : List Release) (k j : Nat) (st : Status)
    (hjk : ¬ j = k) :
    (setReleaseStatus l k st).find? (fun r => decide (r.id = j)) =
      l.find? (fun r => decide (r.id = j)) := by
  induction l with
  | nil => rfl
  | cons r rs ih =>
    simp only [setReleaseStatus, List.map_cons] at ih ⊢
    by_cases hk : r.id = k
    · have hj : ¬ r.id = j := by rw [hk]; intro h; exact hjk h.symm
      rw [if_pos hk, List.find?_cons_of_neg, List.find?_cons_of_neg]
      · exact ih
      · simpa using hj
      · simpa [hk] using fun h => hjk h.symm
    · rw [if_neg hk]
      by_cases hj : r.id = j
      · rw [List.find?_cons_of_pos, List.find?_cons_of_pos] <;> simpa using hj
      · rw [List.find?_cons_of_neg, List.find?_cons_of_neg]
        · exact ih
        · simpa using hj
        · simpa using hj

/-! ### Claim C1: `runs_done` and the completion predicate -/

def buildC1 : Build := { id := 1, created := 0, name := "site" }

def relC1 : Release :=
  { id := 1, name := "v1", number := 1, created := 1, status := Status.receiving, build_id := 1 }

/-- A run of release 1 that is already resolved (`needs_diff = false`). -/
def runC1 : Run :=
  { id := 1, release_id := 1, name := "v1", created := 2, image := some "h1", log := none,
    config := none, previous_id := none, needs_diff := false, diff_image := none,
    diff_log := none }

def dbC1 : DB :=
  { builds := [buildC1], releases := [relC1], runs := [runC1], artifacts := [], queue := [],
    nextBuildId := 2, nextReleaseId := 2, nextRunId := 2, clock := 3 }

/-- C1: the mark-runs-complete operation is claimed to move a
receiving/processing Release to processing and immediately evaluate the
completion predicate, ending in reviewing when every run is resolved.  The
code violates this: `runs_done` hands `_check_release_done_processing` the
Release model object where that helper expects a `release_id` for
`Release.query.get`, so the lookup statement fails, the request aborts, and
the release of the failing input (one release in `receiving` with its single
run already resolved) stays in `receiving` instead of reaching `reviewing`. -/
theorem c1_runs_done_never_reaches_reviewing :
    runs_done dbC1 1 "v1" 1 =
      Except.error "InterfaceError: cannot bind a Release object as release_id" ∧
    relStatus (execState dbC1 (runs_done dbC1 1 "v1" 1)) 1 = some Status.receiving :=
  ⟨rfl, rfl⟩

/-! ### Claim C2: `report_pdiff` recomputes `needs_diff` from stale fields -/

def relC2 : Release :=
  { id := 1, name := "v1", number := 1, created := 0, status := Status.processing,
    build_id := 1 }

def runC2 : Run :=
  { id := 1, release_id := 1, name := "v1", created := 1, image := some "h1", log := none,
    config := none, previous_id := none, needs_diff := true, diff_image := none,
    diff_log := none }

def dbC2 : DB :=
  { builds := [], releases := [relC2], runs := [runC2], artifacts := [], queue := [],
    nextBuildId := 1, nextReleaseId := 2, nextRunId := 2, clock := 2 }

/-- C2: the claim says that after `report_pdiff(runId, noDiff?, diffImage?,
diffLog?)` the run's `needs_diff` equals `not (noDiff or diffImage or
diffLog)` computed over the values supplied in that call.  The code computes
it from the run's previously stored `diff_image`/`diff_log` instead (the
fields are overwritten only after the recomputation): reporting
`diff_image = "5"` for a fresh pending run stores the new diff image but
leaves `needs_diff = true`, where the claim requires `false`. -/
theorem c2_needs_diff_uses_stale_fields :
    (findRunById (execState dbC2 (report_pdiff dbC2 1 none (some "5") none)) 1).map
        (fun r => (r.needs_diff, r.diff_image, r.diff_log)) =
      some (true, some "5", none) :=
  rfl

/-! ### Claim C6: duplicate diff reports are not idempotent -/

def relC6 : Release :=
  { id := 1, name := "v1", number := 1, created := 0, status := Status.processing,
    build_id := 1 }

def runC6 : Run :=
  { id := 1, release_id := 1, name := "v1", created := 1, image := some "h1", log := none,
    config := none, previous_id := none, needs_diff := true, diff_image := none,
    diff_log := none }

def dbC6 : DB :=
  { builds := [], releases := [relC6], runs := [runC6], artifacts := [], queue := [],
    nextBuildId := 1, nextReleaseId := 2, nextRunId := 2, clock := 2 }

/-- State after the first `report_pdiff(1, diff_image="5")`. -/
def dbC6a : DB := execState dbC6 (report_pdiff dbC6 1 none (some "5") none)

/-- State after repeating the identical call. -/
def dbC6b : DB := execState dbC6a (report_pdiff dbC6a 1 none (some "5") none)

/-- C6: the claim says a repeated `report_pdiff` call with identical
parameters is a no-op.  On the code, the first `diff_image="5"` report leaves
the run pending (`needs_diff` is recomputed from the old, empty diff fields)
and the release in `processing`; the identical second call then flips
`needs_diff` to `false` and transitions the release to `reviewing`, so the
repeat changes both the Run and the Release. -/
theorem c6_duplicate_report_pdiff_changes_state :
    ((findRunById dbC6a 1).map Run.needs_diff = some true ∧
      relStatus dbC6a 1 = some Status.processing) ∧
    ((findRunById dbC6b 1).map Run.needs_diff = some false ∧
      relStatus dbC6b 1 = some Status.reviewing) ∧
    dbC6b ≠ dbC6a := by
  refine ⟨⟨rfl, rfl⟩, ⟨rfl, rfl⟩, ?_⟩
  decide

/-! ### Claim C7: content-addressed, idempotent artifact upload -/

/-- C7: `upload` returns the content hash of the uploaded bytes as the
artifact identity, and re-uploading the same bytes (under any filename) is a
pure no-op: the same identity is returned and the state — hence the set of
stored Artifacts, their bytes and content types — is completely unchanged. -/
theorem c7_upload_dedup_idempotent (s : DB) (data : List Nat) (fn fn2 : String) :
    (upload s data fn).2 = sha1hex data ∧
    upload (upload s data fn).1 data fn2 = ((upload s data fn).1, sha1hex data) := by
  unfold upload
  cases h : s.artifacts.find? (fun a => decide (a.id = sha1hex data)) with
  | some a => simp [h]
  | none =>
    simp only [h]
    have hfind : ((s.artifacts ++
        [{ id := sha1hex data, created := s.clock, data := data,
           content_type := guess_type fn : Artifact }]).find?
          (fun a => decide (a.id = sha1hex data))) =
        some { id := sha1hex data, created := s.clock, data := data,
               content_type := guess_type fn } := by
      rw [find?_append_none _ h]
      simp [List.find?_cons]
    simp [hfind]

/-! ### Characterisation of the completion gate -/

/-- What `_check_release_done_processing` does when handed an integer key:
if the release exists, is processing, and all its runs are resolved, its row
moves to reviewing; in every other case the state is unchanged. -/
def gateStep (s : DB) (k : Nat) : DB × Bool :=
  match findReleaseById s k with
  | none => (s, false)
  | some rel =>
    if rel.status = Status.processing ∧ runsResolvedIn s rel.id = true
    then ({ s with releases := setReleaseStatus s.releases rel.id Status.reviewing }, true)
    else (s, false)

theorem findReleaseById_id {s : DB} {k : Nat} {rel : Release}
    (h : findReleaseById s k = some rel) : rel.id = k := by
  unfold findReleaseById at h
  have h2 := List.find?_some h
  simpa using h2

theorem gateStep_none {s : DB} {k : Nat} (h : findReleaseById s k = none) :
    gateStep s k = (s, false) := by
  unfold gateStep
  rw [h]

theorem gateStep_some {s : DB} {k : Nat} {rel : Release}
    (h : findReleaseById s k = some rel) :
    gateStep s k =
      (if rel.status = Status.processing ∧ runsResolvedIn s rel.id = true
       then ({ s with releases := setReleaseStatus s.releases rel.id Status.reviewing }, true)
       else (s, false)) := by
  unfold gateStep
  rw [h]

theorem check_byId_eq_gateStep (s : DB) (k : Nat) :
    check_release_done_processing s (ReleaseKey.byId k) = Except.ok (gateStep s k) := by
  simp only [check_release_done_processing, queryGetRelease]
  cases hrel : findReleaseById s k with
  | none => rw [gateStep_none hrel]
  | some rel =>
    rw [gateStep_some hrel]
    show (if rel.status ≠ Status.processing then Except.ok (s, false)
        else if ((s.runs.filter (fun r => decide (r.release_id = rel.id))).any
            (fun r => r.needs_diff)) = true then (Except.ok (s, false) : Except String (DB × Bool))
        else Except.ok ({ s with
            releases := setReleaseStatus s.releases rel.id Status.reviewing }, true)) = _
    by_cases hst : rel.status = Status.processing
    · rw [if_neg (fun h2 => h2 hst)]
      cases hp : (s.runs.filter (fun r => decide (r.release_id = rel.id))).any
          (fun r => r.needs_diff) with
      | false =>
        have hres : runsResolvedIn s rel.id = true := by
          unfold runsResolvedIn
          rw [all_not_eq_not_any (fun r : Run => r.needs_diff), hp]
          rfl
        rw [if_neg Bool.false_ne_true, if_pos ⟨hst, hres⟩]
      | true =>
        have hres : runsResolvedIn s rel.id = false := by
          unfold runsResolvedIn
          rw [all_not_eq_not_any (fun r : Run => r.needs_diff), hp]
          rfl
        rw [if_pos rfl, if_neg (fun hc => Bool.false_ne_true (hres ▸ hc.2))]
    · rw [if_pos hst, if_neg (fun hc => hst hc.1)]

theorem report_pdiff_eq (s : DB) (run_id : Nat) (nd di dl : Option String) (run : Run)
    (hrun : findRunById s run_id = some run) :
    report_pdiff s run_id nd di dl =
      Except.ok ((gateStep (pdiffState s run_id run nd di dl) run.release_id).1, true) := by
  unfold report_pdiff
  simp only [hrun]
  rw [check_byId_eq_gateStep]

/-- The gate rewrites the row it targets according to the completion
predicate. -/
theorem gateStep_find_self (s : DB) (k : Nat) :
    findReleaseById (gateStep s k).1 k =
      (findReleaseById s k).map (fun rel =>
        if rel.status = Status.processing ∧ runsResolvedIn s rel.id = true
        then { rel with status := Status.reviewing } else rel) := by
  cases hrel : findReleaseById s k with
  | none =>
    rw [gateStep_none hrel]
    simpa using hrel
  | some rel =>
    have hid : rel.id = k := findReleaseById_id hrel
    rw [gateStep_some hrel]
    simp only [Option.map_some']
    by_cases hc : rel.status = Status.processing ∧ runsResolvedIn s rel.id = true
    · rw [if_pos hc]
      rw [if_pos hc]
      show (setReleaseStatus s.releases rel.id Status.reviewing).find?
        (fun r => decide (r.id = k)) = _
      rw [hid, find_setReleaseStatus_self]
      have hfind' : s.releases.find? (fun r => decide (r.id = k)) = some rel := hrel
      rw [hfind']
      simp [hid]
    · rw [if_neg hc]
      rw [if_neg hc]
      show findReleaseById s k = some rel
      exact hrel

/-- The gate leaves every other release row unchanged. -/
theorem gateStep_find_other (s : DB) (k j : Nat) (hjk : ¬ j = k) :
    findReleaseById (gateStep s k).1 j = findReleaseById s j := by
  cases hrel : findReleaseById s k with
  | none => rw [gateStep_none hrel]
  | some rel =>
    have hid : rel.id = k := findReleaseById_id hrel
    rw [gateStep_some hrel]
    by_cases hc : rel.status = Status.processing ∧ runsResolvedIn s rel.id = true
    · rw [if_pos hc]
      show (setReleaseStatus s.releases rel.id Status.reviewing).find?
        (fun r => decide (r.id = j)) = _
      rw [hid]
      exact find_setReleaseStatus_other s.releases k j Status.reviewing hjk
    · rw [if_neg hc]

/-- The gate never touches a release that is not in processing. -/
theorem gateStep_preserves_nonprocessing (s : DB) (k rid : Nat) (r : Release)
    (hfind : findReleaseById s rid = some r) (hnp : r.status ≠ Status.processing) :
    findReleaseById (gateStep s k).1 rid = some r := by
  by_cases hjk : rid = k
  · subst hjk
    rw [gateStep_some hfind, if_neg (fun hc => hnp hc.1)]
    exact hfind
  · rw [gateStep_find_other s k rid hjk]
    exact hfind

/-- `runs_done` can never commit: if the release is missing the request is
rejected, and otherwise the completion-gate call fails because the Release
object itself is handed to `Release.query.get` as a key. -/
theorem runs_done_always_errors (s : DB) (b : Nat) (nm : String) (k : Nat) :
    ∃ e, runs_done s b nm k = Except.error e := by
  unfold runs_done
  by_cases h : nm.isEmpty = true
  · rw [if_pos h]
    exact ⟨_, rfl⟩
  · rw [if_neg h]
    cases findReleaseBy s b nm k with
    | none => exact ⟨_, rfl⟩
    | some release => exact ⟨_, rfl⟩

theorem upload_preserves_releases (s : DB) (d : List Nat) (fn : String) :
    (upload s d fn).1.releases = s.releases := by
  unfold upload
  dsimp only
  cases s.artifacts.find? (fun a => decide (a.id = sha1hex d)) <;> rfl

/-! ### Characterisation of the first-by-descending-order queries -/

theorem latestByCreated_none (l : List Release) (h : latestByCreated l = none) : l = [] := by
  cases l with
  | nil => rfl
  | cons r rs =>
    exfalso
    unfold latestByCreated at h
    cases h2 : latestByCreated rs with
    | none =>
      rw [h2] at h
      dsimp only at h
      exact Option.noConfusion h
    | some m =>
      rw [h2] at h
      dsimp only at h
      by_cases hgt : m.created > r.created
      · rw [if_pos hgt] at h
        exact Option.noConfusion h
      · rw [if_neg hgt] at h
        exact Option.noConfusion h

theorem latestByCreated_mem (l : List Release) (g : Release)
    (h : latestByCreated l = some g) : g ∈ l := by
  induction l generalizing g with
  | nil => exact Option.noConfusion h
  | cons r rs ih =>
    unfold latestByCreated at h
    cases h2 : latestByCreated rs with
    | none =>
      rw [h2] at h
      dsimp only at h
      have hr : r = g := Option.some.inj h
      exact hr ▸ List.mem_cons_self r rs
    | some m =>
      rw [h2] at h
      dsimp only at h
      by_cases hgt : m.created > r.created
      · rw [if_pos hgt] at h
        have hm : m = g := Option.some.inj h
        exact List.mem_cons_of_mem r (hm ▸ ih m h2)
      · rw [if_neg hgt] at h
        have hr : r = g := Option.some.inj h
        exact hr ▸ List.mem_cons_self r rs

theorem latestByCreated_max (l : List Release) (g : Release)
    (h : latestByCreated l = some g) : ∀ x ∈ l, x.created ≤ g.created := by
  induction l generalizing g with
  | nil =>
    intro x hx
    exact absurd hx (List.not_mem_nil x)
  | cons r rs ih =>
    intro x hx
    unfold latestByCreated at h
    cases h2 : latestByCreated rs with
    | none =>
      rw [h2] at h
      dsimp only at h
      have hr : r = g := Option.some.inj h
      have hrs : rs = [] := latestByCreated_none rs h2
      subst hrs
      rcases List.mem_cons.mp hx with hx | hx
      · have e1 : x.created = r.created := by rw [hx]
        have e2 : r.created = g.created := by rw [hr]
        omega
      · exact absurd hx (List.not_mem_nil x)
    | some m =>
      rw [h2] at h
      dsimp only at h
      by_cases hgt : m.created > r.created
      · rw [if_pos hgt] at h
        have hm : m = g := Option.some.inj h
        have e2 : m.created = g.created := by rw [hm]
        rcases List.mem_cons.mp hx with hx | hx
        · have e1 : x.created = r.created := by rw [hx]
          omega
        · have := ih m h2 x hx
          omega
      · rw [if_neg hgt] at h
        have hr : r = g := Option.some.inj h
        have e2 : r.created = g.created := by rw [hr]
        have hle : m.created ≤ r.created := Nat.le_of_not_lt hgt
        rcases List.mem_cons.mp hx with hx | hx
        · have e1 : x.created = r.created := by rw [hx]
          omega
        · have := ih m h2 x hx
          omega

def optNumber : Option Release → Nat
  | none => 0
  | some r => r.number

theorem optNumber_latestByNumber (l : List Release) :
    optNumber (latestByNumber l) = l.foldr (fun r m => max r.number m) 0 := by
  induction l with
  | nil => rfl
  | cons r rs ih =>
    cases h2 : latestByNumber rs with
    | none =>
      have hrs : rs.foldr (fun r m => max r.number m) 0 = 0 := by
        rw [← ih, h2]
        rfl
      have hcons : latestByNumber (r :: rs) = some r := by
        unfold latestByNumber
        rw [h2]
      rw [hcons, List.foldr_cons, hrs]
      show r.number = max r.number 0
      omega
    | some m =>
      have hrs : rs.foldr (fun r m => max r.number m) 0 = m.number := by
        rw [← ih, h2]
        rfl
      have hcons : latestByNumber (r :: rs) =
          (if m.number > r.number then some m else some r) := by
        unfold latestByNumber
        rw [h2]
      rw [hcons, List.foldr_cons, hrs]
      by_cases hgt : m.number > r.number
      · rw [if_pos hgt]
        show m.number = max r.number m.number
        omega
      · rw [if_neg hgt]
        show r.number = max r.number m.number
        omega

/-! ### Claim C3: the completion gate on report-diff -/

/-- Outcome claimed for a report-diff call on an existing run: the request
succeeds, and the owning release's row moves to reviewing exactly when it was
in processing and, after the run update, every run of that release is
resolved; in every other case the row is unchanged. -/
def c3Claim (s : DB) (run_id : Nat) (nd di dl : Option String) (run : Run) : Prop :=
  ∃ s2, report_pdiff s run_id nd di dl = Except.ok (s2, true) ∧
    findReleaseById s2 run.release_id =
      (findReleaseById s run.release_id).map (fun rel =>
        if rel.status = Status.processing ∧
            runsResolvedIn (pdiffState s run_id run nd di dl) run.release_id = true
        then { rel with status := Status.reviewing } else rel)

/-- C3: for a report-diff call on an existing run, the owning release's
status changes to reviewing if and only if it is currently processing and,
after the update, every run of the release has `needs_diff = false`; in
every other case (receiving, reviewing, terminal, or some run still pending)
its status — indeed its whole row — is left unchanged. -/
theorem c3_gate_reviewing_iff_processing_and_resolved
    (s : DB) (run_id : Nat) (nd di dl : Option String) (run : Run)
    (hrun : findRunById s run_id = some run) :
    c3Claim s run_id nd di dl run := by
  refine ⟨(gateStep (pdiffState s run_id run nd di dl) run.release_id).1,
    report_pdiff_eq s run_id nd di dl run hrun, ?_⟩
  rw [gateStep_find_self]
  have hsame : findReleaseById (pdiffState s run_id run nd di dl) run.release_id
      = findReleaseById s run.release_id := rfl
  rw [hsame]
  cases hrel : findReleaseById s run.release_id with
  | none => rfl
  | some rel =>
    have hid : rel.id = run.release_id := findReleaseById_id hrel
    simp only [Option.map_some']
    rw [hid]

def relC3 : Release :=
  { id := 1, name := "v1", number := 1, created := 0, status := Status.processing,
    build_id := 1 }

def runC3 : Run :=
  { id := 1, release_id := 1, name := "v1", created := 1, image := some "h1", log := none,
    config := none, previous_id := none, needs_diff := true, diff_image := none,
    diff_log := none }

def dbC3 : DB :=
  { builds := [], releases := [relC3], runs := [runC3], artifacts := [], queue := [],
    nextBuildId := 1, nextReleaseId := 2, nextRunId := 2, clock := 2 }

/-- Witness for C3: reporting `no_diff` for the single pending run of a
processing release satisfies the hypotheses at a concrete state. -/
theorem c3_gate_reviewing_iff_processing_and_resolved_witness :
    findRunById dbC3 1 = some runC3 ∧ c3Claim dbC3 1 (some "1") none none runC3 :=
  ⟨rfl, c3_gate_reviewing_iff_processing_and_resolved dbC3 1 (some "1") none none runC3 rfl⟩

/-! ### Claim C5: terminal releases are only changed by finalize-release -/

/-- Every operation other than finalize-release leaves the status of release
row `rid` equal to `st` (requests that abort roll back via `execState`). -/
def terminalFrozenAt (s : DB) (rid : Nat) (st : Status) : Prop :=
  (∀ b nm k, relStatus (execState s (runs_done s b nm k)) rid = some st) ∧
  (∀ rid2 nd di dl, relStatus (execState s (report_pdiff s rid2 nd di dl)) rid = some st) ∧
  (∀ b nm k im lg cf nd di dl,
    relStatus (execState s (report_run s b nm k im lg cf nd di dl)) rid = some st) ∧
  (∀ b nm, relStatus (execState s (create_release s b nm)) rid = some st) ∧
  (∀ nm, relStatus (execState s (create_build s nm)) rid = some st) ∧
  (∀ d fn, relStatus (upload s d fn).1 rid = some st)

/-- C5: a release in a terminal state (good or bad) keeps its status across
every operation other than finalize-release; in particular mark-runs-complete
and report-diff never move it back to processing or any other state.  (For
mark-runs-complete this holds because the operation always aborts before
committing; the completion gate reached from report-diff only ever touches a
release that is currently processing.) -/
theorem c5_terminal_release_frozen (s : DB) (rid : Nat) (r : Release)
    (hfind : findReleaseById s rid = some r)
    (hterm : r.status = Status.good ∨ r.status = Status.bad) :
    terminalFrozenAt s rid r.status := by
  have hbase : relStatus s rid = some r.status := by
    unfold relStatus
    rw [hfind]
    rfl
  have hnp : r.status ≠ Status.processing := by
    rcases hterm with h | h <;> rw [h] <;> decide
  refine ⟨?_, ?_, ?_, ?_, ?_, ?_⟩
  · intro b nm k
    obtain ⟨e, he⟩ := runs_done_always_errors s b nm k
    rw [he]
    exact hbase
  · intro rid2 nd di dl
    cases hr2 : findRunById s rid2 with
    | none =>
      have herr : report_pdiff s rid2 nd di dl = Except.error "Run does not exist" := by
        unfold report_pdiff
        rw [hr2]
      rw [herr]
      exact hbase
    | some run =>
      rw [report_pdiff_eq s rid2 nd di dl run hr2]
      show relStatus (gateStep (pdiffState s rid2 run nd di dl) run.release_id).1 rid
        = some r.status
      unfold relStatus
      rw [gateStep_preserves_nonprocessing _ _ _ r
        (show findReleaseById (pdiffState s rid2 run nd di dl) rid = some r from hfind) hnp]
      rfl
  · intro b nm k im lg cf nd di dl
    unfold report_run
    by_cases h1 : nm.isEmpty = true
    · rw [if_pos h1]
      exact hbase
    · rw [if_neg h1]
      cases h2 : findReleaseBy s b nm k with
      | none => exact hbase
      | some rel2 =>
        dsimp only
        by_cases h3 : (!truthy im) = true
        · rw [if_pos h3]
          exact hbase
        · rw [if_neg h3]
          exact hbase
  · intro b nm
    unfold create_release
    by_cases h1 : nm.isEmpty = true
    · rw [if_pos h1]
      exact hbase
    · rw [if_neg h1]
      simp only [execState, relStatus, findReleaseById]
      rw [find?_append_some _
        (show s.releases.find? (fun q => decide (q.id = rid)) = some r from hfind)]
      rfl
  · intro nm
    unfold create_build
    by_cases h1 : nm.isEmpty = true
    · rw [if_pos h1]
      exact hbase
    · rw [if_neg h1]
      exact hbase
  · intro d fn
    unfold relStatus findReleaseById
    rw [upload_preserves_releases]
    exact hbase

def relC5 : Release :=
  { id := 1, name := "v1", number := 1, created := 0, status := Status.good, build_id := 1 }

def runC5 : Run :=
  { id := 1, release_id := 1, name := "v1", created := 1, image := some "h1", log := none,
    config := none, previous_id := none, needs_diff := true, diff_image := none,
    diff_log := none }

def dbC5 : DB :=
  { builds := [], releases := [relC5], runs := [runC5], artifacts := [], queue := [],
    nextBuildId := 1, nextReleaseId := 2, nextRunId := 2, clock := 2 }

/-- Witness for C5: a concrete good release keeps status good across
mark-runs-complete, report-diff and create-release calls. -/
theorem c5_terminal_release_frozen_witness :
    relStatus (execState dbC5 (runs_done dbC5 1 "v1" 1)) 1 = some Status.good ∧
    relStatus (execState dbC5 (report_pdiff dbC5 1 (some "1") none none)) 1
      = some Status.good ∧
    relStatus (execState dbC5 (create_release dbC5 1 "v1")) 1 = some Status.good :=
  ⟨(c5_terminal_release_frozen dbC5 1 relC5 rfl (Or.inl rfl)).1 1 "v1" 1,
   (c5_terminal_release_frozen dbC5 1 relC5 rfl (Or.inl rfl)).2.1 1 (some "1") none none,
   (c5_terminal_release_frozen dbC5 1 relC5 rfl (Or.inl rfl)).2.2.2.1 1 "v1"⟩

/-! ### Claim C4: baseline linking consults the most recent good release -/

/-- Claimed behaviour of baseline resolution in `report_run`: the call
succeeds, the new run's `previous_id` is the first same-named run of the
last good release (none when there is no good release or no such run), and
`lastGoodRelease` really is a good release for (build, name) whose creation
time is maximal — i.e. only the most recently created good release is
consulted. -/
def c4Claim (s : DB) (b : Nat) (nm : String) (k : Nat)
    (im lg cf nd di dl : Option String) : Prop :=
  ∃ s2 run, report_run s b nm k im lg cf nd di dl = Except.ok (s2, run) ∧
    run.previous_id =
      (match lastGoodRelease s b nm with
       | none => none
       | some g =>
         (s.runs.find? (fun r => decide (r.release_id = g.id) && decide (r.name = nm))).map
           Run.id) ∧
    (∀ g, lastGoodRelease s b nm = some g →
      g ∈ goodsFor s b nm ∧ ∀ g2 ∈ goodsFor s b nm, g2.created ≤ g.created) ∧
    (lastGoodRelease s b nm = none → goodsFor s b nm = [])

/-- C4: for a report-run call against an existing release, the new run's
`previous` reference is resolved inside the most recently created release
with status good for the same (build, name) — the run there whose name
equals the reported run's name, if present — and is none when no good
release or no same-named run exists; older good releases are never
consulted. -/
theorem c4_baseline_from_most_recent_good (s : DB) (b : Nat) (nm : String) (k : Nat)
    (im lg cf nd di dl : Option String) (rel : Release)
    (hnm : nm.isEmpty = false) (hrel : findReleaseBy s b nm k = some rel)
    (him : truthy im = true) :
    c4Claim s b nm k im lg cf nd di dl := by
  unfold c4Claim report_run
  rw [if_neg (by rw [hnm]; exact Bool.false_ne_true), hrel]
  dsimp only
  rw [if_neg (by rw [him]; decide)]
  refine ⟨_, _, rfl, rfl, ?_, ?_⟩
  · intro g hg
    exact ⟨latestByCreated_mem (goodsFor s b nm) g hg,
      latestByCreated_max (goodsFor s b nm) g hg⟩
  · intro hnone
    exact latestByCreated_none (goodsFor s b nm) hnone

def relC4good : Release :=
  { id := 1, name := "v1", number := 1, created := 0, status := Status.good, build_id := 1 }

def runC4base : Run :=
  { id := 1, release_id := 1, name := "v1", created := 1, image := some "h0", log := none,
    config := none, previous_id := none, needs_diff := false, diff_image := none,
    diff_log := none }

def relC4new : Release :=
  { id := 2, name := "v1", number := 2, created := 2, status := Status.receiving,
    build_id := 1 }

def dbC4 : DB :=
  { builds := [], releases := [relC4good, relC4new], runs := [runC4base], artifacts := [],
    queue := [], nextBuildId := 1, nextReleaseId := 3, nextRunId := 2, clock := 3 }

/-- Witness for C4: reporting a run against candidate 2 while candidate 1 is
good links `previous` to the good candidate's run. -/
theorem c4_baseline_from_most_recent_good_witness :
    findReleaseBy dbC4 1 "v1" 2 = some relC4new ∧
    c4Claim dbC4 1 "v1" 2 (some "h1") none none none none none :=
  ⟨rfl, c4_baseline_from_most_recent_good dbC4 1 "v1" 2 (some "h1") none none none none none
    relC4new rfl rfl rfl⟩

/-! ### Claim C8: candidate numbering -/

/-- Maximum existing candidate number for (build, name), default 0. -/
def maxNumberFor (s : DB) (b : Nat) (nm : String) : Nat :=
  (relsFor s b nm).foldr (fun r m => max r.number m) 0

/-- The release row inserted by a successful `create_release`. -/
def newReleaseRow (s : DB) (b : Nat) (nm : String) : Release :=
  { id := s.nextReleaseId, name := nm, number := 1 + maxNumberFor s b nm,
    created := s.clock, status := Status.receiving, build_id := b }

/-- Full characterisation of a successful `create_release`. -/
theorem create_release_ok (s : DB) (b : Nat) (nm : String) (hnm : nm.isEmpty = false) :
    create_release s b nm = Except.ok
      ({ s with
          releases := s.releases ++ [newReleaseRow s b nm],
          nextReleaseId := s.nextReleaseId + 1, clock := s.clock + 1 },
        1 + maxNumberFor s b nm) := by
  have hnum : (match latestByNumber (relsFor s b nm) with
      | none => 0 | some r => r.number) = maxNumberFor s b nm := by
    have h := optNumber_latestByNumber (relsFor s b nm)
    cases h2 : latestByNumber (relsFor s b nm) with
    | none =>
      rw [h2] at h
      unfold maxNumberFor
      rw [← h]
      rfl
    | some m =>
      rw [h2] at h
      unfold maxNumberFor
      rw [← h]
      rfl
  unfold create_release
  rw [if_neg (by rw [hnm]; exact Bool.false_ne_true)]
  dsimp only
  rw [hnum]
  rfl

/-- State after `k` successive `create_release` calls for (b, nm). -/
def createSeqState (b : Nat) (nm : String) (s : DB) : Nat → DB
  | 0 => s
  | k + 1 => execState (createSeqState b nm s k)
      (create_release (createSeqState b nm s k) b nm)

/-- Number returned by the (k+1)-st successive `create_release` call. -/
def nthCreateNumber (s : DB) (b : Nat) (nm : String) (k : Nat) : Option Nat :=
  match create_release (createSeqState b nm s k) b nm with
  | Except.ok (_, n) => some n
  | Except.error _ => none

theorem foldr_max_shift (l : List Release) (c : Nat) :
    l.foldr (fun r m => max r.number m) c
      = max (l.foldr (fun r m => max r.number m) 0) c := by
  induction l with
  | nil => simp
  | cons r rs ih =>
    rw [List.foldr_cons, List.foldr_cons, ih, Nat.max_assoc]

theorem maxNumberFor_after_create (s : DB) (b : Nat) (nm : String)
    (hnm : nm.isEmpty = false) :
    maxNumberFor (execState s (create_release s b nm)) b nm = maxNumberFor s b nm + 1 := by
  rw [create_release_ok s b nm hnm]
  simp only [execState]
  unfold maxNumberFor relsFor
  dsimp only
  rw [List.filter_append]
  have hone : List.filter (fun r => decide (r.build_id = b) && decide (r.name = nm))
      [newReleaseRow s b nm] = [newReleaseRow s b nm] := by
    simp [newReleaseRow]
  rw [hone, List.foldr_append, foldr_max_shift]
  show max (maxNumberFor s b nm)
    (max (newReleaseRow s b nm).number 0) = maxNumberFor s b nm + 1
  have hn : (newReleaseRow s b nm).number = 1 + maxNumberFor s b nm := rfl
  rw [hn]
  omega

theorem maxNumberFor_seq (b : Nat) (nm : String) (s : DB) (hnm : nm.isEmpty = false) :
    ∀ k, maxNumberFor (createSeqState b nm s k) b nm = maxNumberFor s b nm + k := by
  intro k
  induction k with
  | zero => rfl
  | succ k ih =>
    show maxNumberFor (execState (createSeqState b nm s k)
      (create_release (createSeqState b nm s k) b nm)) b nm = _
    rw [maxNumberFor_after_create _ b nm hnm, ih]
    omega

/-- C8: `create_release` assigns candidate number
`1 + max(existing numbers for (build, name), default 0)`, so starting from a
state with no candidates for (build, name), the successive calls return
1, 2, 3, … with no repeats and no gaps. -/
theorem c8_monotonic_numbering :
    (∀ s b nm, nm.isEmpty = false →
      ∃ s2, create_release s b nm = Except.ok (s2, 1 + maxNumberFor s b nm)) ∧
    (∀ s b nm, nm.isEmpty = false → relsFor s b nm = [] →
      ∀ k, nthCreateNumber s b nm k = some (k + 1)) := by
  constructor
  · intro s b nm hnm
    exact ⟨_, create_release_ok s b nm hnm⟩
  · intro s b nm hnm h0 k
    have hM : maxNumberFor s b nm = 0 := by
      unfold maxNumberFor
      rw [h0]
      rfl
    unfold nthCreateNumber
    rw [create_release_ok (createSeqState b nm s k) b nm hnm]
    dsimp only
    rw [maxNumberFor_seq b nm s hnm k, hM]
    have harith : 1 + (0 + k) = k + 1 := by omega
    rw [harith]

def dbC8 : DB :=
  { builds := [], releases := [], runs := [], artifacts := [], queue := [],
    nextBuildId := 1, nextReleaseId := 1, nextRunId := 1, clock := 0 }

/-- Witness for C8: from an empty state the first three calls return 1, 2, 3. -/
theorem c8_monotonic_numbering_witness :
    (∃ s2, create_release dbC8 1 "v1" = Except.ok (s2, 1 + maxNumberFor dbC8 1 "v1")) ∧
    nthCreateNumber dbC8 1 "v1" 0 = some 1 ∧
    nthCreateNumber dbC8 1 "v1" 1 = some 2 ∧
    nthCreateNumber dbC8 1 "v1" 2 = some 3 :=
  ⟨c8_monotonic_numbering.1 dbC8 1 "v1" rfl,
   c8_monotonic_numbering.2 dbC8 1 "v1" rfl rfl 0,
   c8_monotonic_numbering.2 dbC8 1 "v1" rfl rfl 1,
   c8_monotonic_numbering.2 dbC8 1 "v1" rfl rfl 2⟩

/-! ### Claim C9: needs-diff default and diff-job enqueueing -/

/-- Claimed behaviour: the returned run's `needs_diff` equals
`not (noDiff supplied or diffImage supplied or diffLog supplied)`, and the
work queue gains exactly one `run-pdiff` job for the new run when
`needs_diff` holds, none otherwise. -/
def c9Claim (s : DB) (b : Nat) (nm : String) (k : Nat)
    (im lg cf nd di dl : Option String) : Prop :=
  ∃ s2 run, report_run s b nm k im lg cf nd di dl = Except.ok (s2, run) ∧
    run.needs_diff = !(nd.isSome || di.isSome || dl.isSome) ∧
    s2.queue = (if run.needs_diff = true
      then s.queue ++ [("run-pdiff", run.id)] else s.queue)

/-- C9: for a report-run call against an existing release (with the optional
diff parameters either absent or carrying non-empty values, so that
"supplied" and Python truthiness coincide), `needs_diff` is the negation of
"any diff-related parameter supplied", and exactly one diff job referencing
the new run is enqueued precisely when `needs_diff` is true. -/
theorem c9_needs_diff_and_single_job (s : DB) (b : Nat) (nm : String) (k : Nat)
    (im lg cf nd di dl : Option String) (rel : Release)
    (hnm : nm.isEmpty = false) (hrel : findReleaseBy s b nm k = some rel)
    (him : truthy im = true)
    (hnd : truthy nd = nd.isSome) (hdi : truthy di = di.isSome)
    (hdl : truthy dl = dl.isSome) :
    c9Claim s b nm k im lg cf nd di dl := by
  unfold c9Claim report_run
  rw [if_neg (by rw [hnm]; exact Bool.false_ne_true), hrel]
  dsimp only
  rw [if_neg (by rw [him]; decide)]
  refine ⟨_, _, rfl, ?_, ?_⟩
  · show (!(truthy nd || truthy di || truthy dl)) = _
    rw [hnd, hdi, hdl]
  · rfl

def relC9 : Release :=
  { id := 1, name := "v1", number := 1, created := 0, status := Status.receiving,
    build_id := 1 }

def dbC9 : DB :=
  { builds := [], releases := [relC9], runs := [], artifacts := [], queue := [],
    nextBuildId := 1, nextReleaseId := 2, nextRunId := 1, clock := 1 }

/-- Witness for C9: a report-run call without diff parameters yields
`needs_diff = true` and one enqueued job. -/
theorem c9_needs_diff_and_single_job_witness :
    findReleaseBy dbC9 1 "v1" 1 = some relC9 ∧
    c9Claim dbC9 1 "v1" 1 (some "h1") none none none none none :=
  ⟨rfl, c9_needs_diff_and_single_job dbC9 1 "v1" 1 (some "h1") none none none none none
    relC9 rfl rfl rfl rfl rfl rfl⟩

/-! ### Claim C10: create-release frame -/

/-- Claimed frame of `create_release`: one new receiving release is appended
and every previously existing build, release, run, artifact and queue entry
is untouched — in particular no prior candidate is promoted to good. -/
def c10Claim (s : DB) (b : Nat) (nm : String) : Prop :=
  ∃ s2 n rel, create_release s b nm = Except.ok (s2, n) ∧
    s2.builds = s.builds ∧ s2.runs = s.runs ∧ s2.artifacts = s.artifacts ∧
    s2.queue = s.queue ∧ s2.releases = s.releases ++ [rel] ∧
    rel.status = Status.receiving

/-- C10: every successful create-release call adds exactly one new Release
(in state receiving) and leaves every previously existing Build, Release,
Run and Artifact unchanged; in particular it never auto-promotes a prior
candidate of another release name to good. -/
theorem c10_create_release_frame (s : DB) (b : Nat) (nm : String)
    (hnm : nm.isEmpty = false) : c10Claim s b nm := by
  refine ⟨_, _, _, create_release_ok s b nm hnm, rfl, rfl, rfl, rfl, rfl, rfl⟩

def relC10 : Release :=
  { id := 1, name := "v0", number := 1, created := 0, status := Status.reviewing,
    build_id := 1 }

def dbC10 : DB :=
  { builds := [{ id := 1, created := 0, name := "site" }], releases := [relC10], runs := [],
    artifacts := [], queue := [], nextBuildId := 2, nextReleaseId := 2, nextRunId := 1,
    clock := 1 }

/-- Witness for C10: cutting a new name "v1" leaves the existing "v0"
candidate untouched (it is not auto-promoted to good). -/
theorem c10_create_release_frame_witness :
    ("v1" : String).isEmpty = false ∧ c10Claim dbC10 1 "v1" :=
  ⟨rfl, c10_create_release_frame dbC10 1 "v1" rfl⟩

end Dpxdt
